import Mathlib

/-!
Verification of the Auto-PhosFlow pipeline controller.

The development shallowly embeds the two control layers of the repository:

* the per-molecule pipeline state machine of workflow_manager.py
  (class MoleculeFlow), modelled as a pure transition function over the
  on-disk marker state of one unit together with a list of observable
  side effects (job submissions, file writes, fatal marks);

* the batch loop of batch_manager.py (class BatchController), modelled
  over the status-store records, with exceptions of the unprotected
  save path represented in an Except result.

Read-only probe functions that live in lib/g16_handler.py and the
function check_evc_err_file (imported by workflow_manager.py but not
present in the source tree) are treated as abstract inputs: a cycle is
run against the values those probes would return for the current
artifacts.  All decision logic present in the sources is translated
branch by branch.
-/

namespace AutoPhosFlow

/-- The ten stage working directories of one unit, as laid out in
MoleculeFlow.dirs (01_S0_Opt .. 10_MOMAP_Kic). -/
inductive StageDir
  | s0opt | s0freq | s1opt | s1freq | t1opt | t1freq | orca | kr | kisc | kic
deriving DecidableEq, Repr

/-- Observable side effects of one MoleculeFlow.process call.  State
changes to marker files are tracked in the state records; every write
of a payload file, every scheduler submission and every append to
FATAL_ERROR.txt additionally shows up here. -/
inductive Eff
  /-- submit_to_queue: sbatch run.slurm inside the given directory. -/
  | submit (dir : StageDir)
  /-- write_gjf; the flag records whether the stricter opt=calcall
  keyword set of the retry path was used. -/
  | writeGjf (dir : StageDir) (calcall : Bool)
  /-- write_g16_slurm / write_orca_slurm / write_momap_slurm, all of
  which create the file run.slurm in the directory. -/
  | writeSlurm (dir : StageDir)
  /-- copy of the optimisation checkpoint into the frequency folder. -/
  | copyChk (dir : StageDir)
  /-- copies of the source freq logs (and fchk files when present)
  into a MOMAP folder. -/
  | copySources (dir : StageDir)
  /-- write_orca_inp. -/
  | writeOrcaInp
  /-- write_momap_inp in evc mode; the flag is use_cartesian. -/
  | writeEvcInp (dir : StageDir) (cart : Bool)
  /-- write_momap_inp in kr/kisc/kic mode; the string is the DSFile
  the rate job is told to read. -/
  | writeRateInp (dir : StageDir) (dsFile : String)
  /-- content written into the evc.done marker. -/
  | writeEvcDone (dir : StageDir) (content : String)
  /-- mark_fatal_error: append a timestamped message to
  FATAL_ERROR.txt. -/
  | fatalMark (msg : String)
  /-- creation of REPORT_PLQY.txt by the final analysis. -/
  | writeReport
deriving DecidableEq, Repr

/-- Marker state of one optimisation + frequency stage pair
(directories like 01_S0_Opt / 02_S0_Freq). -/
structure GaussFS where
  /-- job.done in the opt directory. -/
  optDone : Bool
  /-- run.slurm in the opt directory. -/
  optSlurm : Bool
  /-- RETRY_CALCALL in the opt directory. -/
  retryCalcall : Bool
  /-- the name_opt.log file exists. -/
  optLog : Bool
  /-- the name_opt.chk file exists. -/
  optChk : Bool
  /-- job.done in the freq directory. -/
  freqDone : Bool
  /-- run.slurm in the freq directory. -/
  freqSlurm : Bool
  /-- the name_freq.log file exists. -/
  freqLog : Bool
  /-- the name_freq.chk file (copied from the opt chk) exists. -/
  freqChk : Bool
deriving DecidableEq, Repr

/-- Values of the read-only probes of lib/g16_handler.py (a module of
the repository that is not part of the provided sources) applied to the
current artifacts of one stage pair: they are inputs of a cycle, not
modified by it. -/
structure GaussEnv where
  /-- check_g16_termination on the opt log. -/
  optTermOk : Bool
  /-- check_g16_termination on the freq log. -/
  freqTermOk : Bool
  /-- first component of check_imaginary_frequencies on the freq log. -/
  hasImag : Bool
  /-- check_job_elapsed_time on the freq log, in hours. -/
  elapsedHours : ℚ
  /-- coordinate extraction (read_xyz_coords / extract_geom_with_obabel)
  for the opt input succeeds. -/
  optCoordsOk : Bool
  /-- coordinate extraction from the previous opt log for the freq
  input succeeds. -/
  freqCoordsOk : Bool
deriving DecidableEq, Repr

/-- Result of one submission helper: new stage state, effects, and the
message appended to FATAL_ERROR.txt when mark_fatal_error ran. -/
structure GaussOut where
  g : GaussFS
  effs : List Eff
  fatal : Option String
deriving DecidableEq, Repr

/-- MoleculeFlow.run_opt_step (workflow_manager.py lines 216-254).
An existing run.slurm without job.done suppresses everything;
otherwise the input deck is generated and the job submitted. -/
def run_opt_step (od : StageDir) (coordsOk isRetry : Bool) (g : GaussFS) :
    GaussOut :=
  if g.optSlurm && !g.optDone then
    { g := g, effs := [], fatal := none }
  else if !coordsOk then
    { g := g, effs := [], fatal := some "Failed to extract coords" }
  else
    { g := { g with optSlurm := true },
      effs := [.writeGjf od isRetry, .writeSlurm od, .submit od],
      fatal := none }

/-- MoleculeFlow.run_freq_step (workflow_manager.py lines 256-309).
Note that the checkpoint copy happens before the opt-log check, so a
call may copy the checkpoint and still return without submitting. -/
def run_freq_step (fd : StageDir) (coordsOk : Bool) (g : GaussFS) :
    GaussOut :=
  if g.freqSlurm && !g.freqDone then
    { g := g, effs := [], fatal := none }
  else if !g.optChk then
    { g := g, effs := [], fatal := none }
  else
    let g1 := { g with freqChk := true }
    if !g.optLog then
      { g := g1, effs := [.copyChk fd], fatal := none }
    else if !coordsOk then
      { g := g1, effs := [.copyChk fd],
        fatal := some "Failed to extract coords from prev opt" }
    else
      { g := { g1 with freqSlurm := true },
        effs := [.copyChk fd, .writeGjf fd false, .writeSlurm fd,
                 .submit fd],
        fatal := none }

/-- MoleculeFlow.trigger_retry (workflow_manager.py lines 701-723):
touch RETRY_CALCALL in the opt directory; in both directories delete
job.done, rename the logs to a .bak suffix and delete the chk files.
The run.slurm files of both directories are left in place. -/
def trigger_retry (g : GaussFS) : GaussFS :=
  { g with retryCalcall := true,
           optDone := false, freqDone := false,
           optLog := false, freqLog := false,
           optChk := false, freqChk := false }

/-- Result of one gaussian stage-pair cycle; ok mirrors the boolean
returned by handle_gaussian_cycle. -/
structure CycleOut where
  g : GaussFS
  effs : List Eff
  fatal : Option String
  ok : Bool
deriving DecidableEq, Repr

/-- MoleculeFlow.handle_gaussian_cycle (workflow_manager.py lines
142-211): opt completion and termination check, freq completion and
termination check, imaginary-frequency gate with the single bounded
calcall retry (fatal when the retry flag already exists or the freq
run took 8 hours or more). -/
def handle_gaussian_cycle (od fd : StageDir) (env : GaussEnv)
    (g : GaussFS) : CycleOut :=
  if !g.optDone then
    let o := run_opt_step od env.optCoordsOk g.retryCalcall g
    { g := o.g, effs := o.effs, fatal := o.fatal, ok := false }
  else if !env.optTermOk then
    { g := g, effs := [], fatal := some "opt Error Termination",
      ok := false }
  else if !g.freqDone then
    let o := run_freq_step fd env.freqCoordsOk g
    { g := o.g, effs := o.effs, fatal := o.fatal, ok := false }
  else if !env.freqTermOk then
    { g := g, effs := [], fatal := some "freq Error Termination",
      ok := false }
  else if !env.hasImag then
    { g := g, effs := [], fatal := none, ok := true }
  else if g.retryCalcall then
    { g := g, effs := [],
      fatal := some "failed convergence (Imaginary Freq after Retry)",
      ok := false }
  else if env.elapsedHours < 8 then
    { g := trigger_retry g, effs := [], fatal := none, ok := false }
  else
    { g := g, effs := [], fatal := some "imaginary freq (time over 8h)",
      ok := false }

/-- Marker state of the 07_ORCA_SOC directory. -/
structure OrcaFS where
  jobDone : Bool
  slurm : Bool
deriving DecidableEq, Repr

/-- MoleculeFlow.handle_orca_step (workflow_manager.py lines 314-339):
has-lock-means-stop logic; a failed coordinate extraction only prints
an error and returns, it does not mark the unit fatal. -/
def handle_orca_step (t1OptLog coordsOk : Bool) (o : OrcaFS) :
    OrcaFS × List Eff :=
  if o.jobDone then (o, [])
  else if o.slurm then (o, [])
  else if !t1OptLog then (o, [])
  else if !coordsOk then (o, [])
  else ({ o with slurm := true },
        [.writeOrcaInp, .writeSlurm .orca, .submit .orca])

/-- lib/momap_handler.py check_evc_reorg (lines 127-172).  The two
inputs are the parsed Total-reorganization-energy pairs of
evc.dint.dat and evc.cart.dat; none stands for a file that is absent
or whose content does not match the pattern.  The files are visited in
the order dint, cart; a value above 5000 in either column aborts with
a failure at once; otherwise the file with the smallest mean wins,
ties going to evc.dint.dat because Python min keeps the first
minimum. -/
def check_evc_reorg (dint cart : Option (ℚ × ℚ)) : Bool × Option String :=
  match dint, cart with
  | some d, some c =>
      if 5000 < d.1 || 5000 < d.2 then (false, none)
      else if 5000 < c.1 || 5000 < c.2 then (false, none)
      else if (c.1 + c.2) / 2 < (d.1 + d.2) / 2 then
        (true, some "evc.cart.dat")
      else
        (true, some "evc.dint.dat")
  | some d, none =>
      if 5000 < d.1 || 5000 < d.2 then (false, none)
      else (true, some "evc.dint.dat")
  | none, some c =>
      if 5000 < c.1 || 5000 < c.2 then (false, none)
      else (true, some "evc.cart.dat")
  | none, none => (false, none)

/-- Marker state of one MOMAP branch directory
(08_MOMAP_Kr / 09_MOMAP_Kisc / 10_MOMAP_Kic). -/
structure MomapFS where
  /-- the evc.done marker together with its recorded content. -/
  evcDone : Option String
  /-- RETRY_CART. -/
  retryCart : Bool
  /-- a file named run_evc.slurm; no code path ever creates one
  (write_momap_slurm always writes run.slurm), the field exists because
  the handlers test for it. -/
  runEvcSlurm : Bool
  /-- run.slurm. -/
  runSlurm : Bool
  /-- job.done. -/
  jobDone : Bool
  /-- evc.out. -/
  evcOut : Bool
deriving DecidableEq, Repr

/-- Result of check_evc_err_file on the branch directory.  The function
is imported by workflow_manager.py from lib.momap_handler but is not
present in the provided sources; only its three observed outcomes
matter to the handlers. -/
inductive EvcErrStatus
  | ok
  | coordError
  | crashed
deriving DecidableEq, Repr

/-- External inputs of one MOMAP branch handler call. -/
structure MomapEnv where
  /-- check_evc_err_file result for the branch directory. -/
  errStatus : EvcErrStatus
  /-- parsed reorganization-energy pair of evc.dint.dat. -/
  dint : Option (ℚ × ℚ)
  /-- parsed reorganization-energy pair of evc.cart.dat. -/
  cart : Option (ℚ × ℚ)
deriving DecidableEq, Repr

/-- The three MOMAP branches. -/
inductive MomapBranch
  | kr | kisc | kic
deriving DecidableEq, Repr

/-- Directory of a MOMAP branch. -/
def MomapBranch.dir : MomapBranch → StageDir
  | .kr => .kr
  | .kisc => .kisc
  | .kic => .kic

/-- Content written into evc.done on a passed validation: kr and kisc
record the best candidate file name returned by check_evc_reorg, kic
always records evc.cart.dat (workflow_manager.py lines 413-414,
515-516, 617-618). -/
def MomapBranch.evcDoneContent (b : MomapBranch) (best : Option String) :
    String :=
  match b with
  | .kic => "evc.cart.dat"
  | _ => best.getD ""

/-- Python dict.get over the keyword arguments a write_momap_inp call
site passes: the binding for the key, or the default.  MOMAP_PARAMS in
config.py carries no DSFile key, so only the call-site keywords and
the template default matter. -/
def kwargsGet (kwargs : List (String × String)) (key dflt : String) :
    String :=
  match kwargs.find? (fun p => p.1 == key) with
  | some p => p.2
  | none => dflt

/-- The dat-file keyword each rate-phase call site hands to
write_momap_inp: kr passes the evc.done content under the lowercase
key ds_file (workflow_manager.py lines 437-438), kisc under DSFile
(lines 537-538), kic the fixed name evc.cart.dat under DSFile (lines
632-633). -/
def MomapBranch.rateKwargs (b : MomapBranch) (evcDoneContent : String) :
    List (String × String) :=
  match b with
  | .kr => [("ds_file", evcDoneContent)]
  | .kisc => [("DSFile", evcDoneContent)]
  | .kic => [("DSFile", "evc.cart.dat")]

/-- Template default for the DSFile line of write_momap_inp
(lib/momap_handler.py lines 296, 327, 358): evc.dint.dat for the kisc
template, evc.cart.dat for the kr and kic templates. -/
def MomapBranch.dsFileDefault : MomapBranch → String
  | .kisc => "evc.dint.dat"
  | _ => "evc.cart.dat"

/-- DSFile actually written into the rate-phase momap.inp: the
template looks up the key DSFile among the merged parameters.  The kr
call site passes the selection under the key ds_file, which the
lookup never matches, so the kr rate input always carries the
template default evc.cart.dat instead of the recorded choice. -/
def MomapBranch.rateDsFile (b : MomapBranch) (evcDoneContent : String) :
    String :=
  kwargsGet (b.rateKwargs evcDoneContent) "DSFile" b.dsFileDefault

/-- Result of one MOMAP branch handler call. -/
structure MomapOut where
  m : MomapFS
  effs : List Eff
  fatal : Option String
deriving DecidableEq, Repr

/-- MoleculeFlow.handle_momap_kr / handle_momap_kisc /
handle_momap_kic (workflow_manager.py lines 344-441, 446-541,
546-636), plus the evc.done content and DSFile differences captured by
MomapBranch.  src1 and src2 are the existence of the two source freq
logs (s0 and t1 for kr and kisc, s0 and s1 for kic). -/
def handle_momap (b : MomapBranch) (env : MomapEnv) (src1 src2 : Bool)
    (m : MomapFS) : MomapOut :=
  let d := b.dir
  match m.evcDone with
  | none =>
    -- Phase 1: EVC
    match env.errStatus with
    | .coordError =>
      if !m.retryCart then
        -- touch RETRY_CART, unlink run.slurm and job.done, regenerate
        -- the input with set_cart, rewrite run.slurm, resubmit
        { m := { m with retryCart := true, runSlurm := true,
                        jobDone := false },
          effs := [.writeEvcInp d true, .writeSlurm d, .submit d],
          fatal := none }
      else
        { m := m, effs := [],
          fatal := some "EVC failed even with set_cart" }
    | .crashed =>
      { m := m, effs := [],
        fatal := some "MOMAP EVC calculation crashed" }
    | .ok =>
      if m.runEvcSlurm && !m.jobDone then
        { m := m, effs := [], fatal := none }
      else if !(src1 && src2) then
        { m := m, effs := [], fatal := none }
      else
        let m1 := { m with runSlurm := true }
        let effs1 := [.copySources d, .writeEvcInp d m.retryCart,
                      .writeSlurm d]
        let effs2 := if !m.evcOut then effs1 ++ [.submit d] else effs1
        if m.jobDone then
          match check_evc_reorg env.dint env.cart with
          | (true, best) =>
            { m := { m1 with jobDone := false, runSlurm := false,
                             evcDone := some (b.evcDoneContent best) },
              effs := effs2 ++ [.writeEvcDone d (b.evcDoneContent best)],
              fatal := none }
          | (false, _) =>
            { m := m1, effs := effs2,
              fatal := some "EVC Reorg Energy too high" }
        else
          { m := m1, effs := effs2, fatal := none }
  | some content =>
    -- Phase 2: rate job
    if m.jobDone then { m := m, effs := [], fatal := none }
    else if m.runSlurm then { m := m, effs := [], fatal := none }
    else
      { m := { m with runSlurm := true },
        effs := [.writeRateInp d (b.rateDsFile content), .writeSlurm d,
                 .submit d],
        fatal := none }

/-- On-disk state of one unit (one molecule working directory). -/
structure FlowFS where
  /-- FATAL_ERROR.txt exists under the unit root. -/
  fatal : Bool
  s0 : GaussFS
  s1 : GaussFS
  t1 : GaussFS
  orca : OrcaFS
  kr : MomapFS
  kisc : MomapFS
  kic : MomapFS
  /-- REPORT_PLQY.txt exists under the unit root. -/
  report : Bool
deriving DecidableEq, Repr

/-- All probe values for one MoleculeFlow.process call. -/
structure Env where
  s0 : GaussEnv
  s1 : GaussEnv
  t1 : GaussEnv
  /-- T1 geometry extraction for the ORCA input succeeds. -/
  orcaCoordsOk : Bool
  kr : MomapEnv
  kisc : MomapEnv
  kic : MomapEnv
deriving DecidableEq, Repr

/-- Append the fatal-mark effect of a handler at its position in the
effect trace. -/
def withFatal (effs : List Eff) : Option String → List Eff
  | some msg => effs ++ [.fatalMark msg]
  | none => effs

/-- MoleculeFlow.run_final_analysis (workflow_manager.py lines
641-698): generating the report is idempotent, the presence of
REPORT_PLQY.txt short-circuits it. -/
def run_final_analysis (fs : FlowFS) : FlowFS × List Eff :=
  if fs.report then (fs, [])
  else ({ fs with report := true }, [.writeReport])

/-- MoleculeFlow.process (workflow_manager.py lines 77-137): fuse
check on FATAL_ERROR.txt, the three gaussian cycles with early
return, the ORCA step, the three MOMAP branches gated on their
upstream job.done markers, and the final analysis. -/
def process (env : Env) (fs : FlowFS) : FlowFS × List Eff :=
  if fs.fatal then (fs, [])
  else
    let r0 := handle_gaussian_cycle .s0opt .s0freq env.s0 fs.s0
    let fs := { fs with s0 := r0.g, fatal := fs.fatal || r0.fatal.isSome }
    let acc := withFatal r0.effs r0.fatal
    if !r0.ok then (fs, acc)
    else
      let r1 := handle_gaussian_cycle .s1opt .s1freq env.s1 fs.s1
      let fs := { fs with s1 := r1.g,
                          fatal := fs.fatal || r1.fatal.isSome }
      let acc := acc ++ withFatal r1.effs r1.fatal
      if !r1.ok then (fs, acc)
      else
        let r2 := handle_gaussian_cycle .t1opt .t1freq env.t1 fs.t1
        let fs := { fs with t1 := r2.g,
                            fatal := fs.fatal || r2.fatal.isSome }
        let acc := acc ++ withFatal r2.effs r2.fatal
        if !r2.ok then (fs, acc)
        else
          let ro := handle_orca_step fs.t1.optLog env.orcaCoordsOk fs.orca
          let fs := { fs with orca := ro.1 }
          let acc := acc ++ ro.2
          let s0done := fs.s0.freqDone
          let s1done := fs.s1.freqDone
          let t1done := fs.t1.freqDone
          let orcaDone := fs.orca.jobDone
          let step1 :=
            if s0done && t1done && orcaDone then
              let rkr := handle_momap .kr env.kr fs.s0.freqLog
                fs.t1.freqLog fs.kr
              let fs := { fs with kr := rkr.m,
                                  fatal := fs.fatal || rkr.fatal.isSome }
              let acc := acc ++ withFatal rkr.effs rkr.fatal
              let rki := handle_momap .kisc env.kisc fs.s0.freqLog
                fs.t1.freqLog fs.kisc
              let fs := { fs with kisc := rki.m,
                                  fatal := fs.fatal || rki.fatal.isSome }
              (fs, acc ++ withFatal rki.effs rki.fatal)
            else (fs, acc)
          let fs := step1.1
          let acc := step1.2
          let step2 :=
            if s0done && s1done then
              let rkc := handle_momap .kic env.kic fs.s0.freqLog
                fs.s1.freqLog fs.kic
              let fs := { fs with kic := rkc.m,
                                  fatal := fs.fatal || rkc.fatal.isSome }
              (fs, acc ++ withFatal rkc.effs rkc.fatal)
            else (fs, acc)
          let fs := step2.1
          let acc := step2.2
          if fs.kr.jobDone && fs.kisc.jobDone && fs.kic.jobDone then
            let rf := run_final_analysis fs
            (rf.1, acc ++ rf.2)
          else (fs, acc)

/-- The eight markers determine_stage reads, in the order it tests
them. -/
structure StageView where
  report : Bool
  kicDone : Bool
  kiscDone : Bool
  krDone : Bool
  orcaDone : Bool
  t1optDone : Bool
  s1optDone : Bool
  s0freqDone : Bool
deriving DecidableEq, Repr

/-- Projection of a unit state onto the markers determine_stage
reads. -/
def FlowFS.view (fs : FlowFS) : StageView :=
  { report := fs.report,
    kicDone := fs.kic.jobDone,
    kiscDone := fs.kisc.jobDone,
    krDone := fs.kr.jobDone,
    orcaDone := fs.orca.jobDone,
    t1optDone := fs.t1.optDone,
    s1optDone := fs.s1.optDone,
    s0freqDone := fs.s0.freqDone }

/-- BatchController.determine_stage (batch_manager.py lines 126-135)
on the markers it reads: first matching marker from the top of the
pipeline wins. -/
def determineStageView (v : StageView) : String :=
  if v.report then "Analysis Done"
  else if v.kicDone then "MOMAP Kic Done"
  else if v.kiscDone then "MOMAP Kisc Done"
  else if v.krDone then "MOMAP Kr Done"
  else if v.orcaDone then "ORCA Done"
  else if v.t1optDone then "Gaussian T1 Done"
  else if v.s1optDone then "Gaussian S1 Done"
  else if v.s0freqDone then "Gaussian S0 Done"
  else "Starting / In Progress"

/-- BatchController.determine_stage applied to a unit state. -/
def determine_stage (fs : FlowFS) : String :=
  determineStageView fs.view

/-- Position of the determine_stage label in pipeline order, 0 for
Starting / In Progress up to 8 for Analysis Done, following the same
first-match chain as determine_stage. -/
def stageIdxView (v : StageView) : Nat :=
  if v.report then 8
  else if v.kicDone then 7
  else if v.kiscDone then 6
  else if v.krDone then 5
  else if v.orcaDone then 4
  else if v.t1optDone then 3
  else if v.s1optDone then 2
  else if v.s0freqDone then 1
  else 0

/-- Pipeline order position of the label determine_stage reports. -/
def stageIdx (fs : FlowFS) : Nat :=
  stageIdxView fs.view

/-- The pipeline labels in ascending pipeline order. -/
def stageLabel (n : Nat) : String :=
  match n with
  | 0 => "Starting / In Progress"
  | 1 => "Gaussian S0 Done"
  | 2 => "Gaussian S1 Done"
  | 3 => "Gaussian T1 Done"
  | 4 => "ORCA Done"
  | 5 => "MOMAP Kr Done"
  | 6 => "MOMAP Kisc Done"
  | 7 => "MOMAP Kic Done"
  | _ => "Analysis Done"

/-- Pointwise ordering of the markers: no marker read by
determine_stage was cleared. -/
def StageView.le (v w : StageView) : Bool :=
  (!v.report || w.report) && (!v.kicDone || w.kicDone) &&
  (!v.kiscDone || w.kiscDone) && (!v.krDone || w.krDone) &&
  (!v.orcaDone || w.orcaDone) && (!v.t1optDone || w.t1optDone) &&
  (!v.s1optDone || w.s1optDone) && (!v.s0freqDone || w.s0freqDone)

/-- Status values of the status store (batch_manager.py). -/
inductive Status
  | pending | running | completed | failed | error
deriving DecidableEq, Repr

/-- One row of the status store, keyed by molecule name.  Timestamps
are modelled as rational hours; lastUpdated is none when the stored
text does not parse (the watchdog swallows that case). -/
structure URec where
  name : String
  status : Status
  stage : String
  lastUpdated : Option ℚ
  remark : String
  startTime : Option ℚ
deriving DecidableEq, Repr

/-- Number of rows with status RUNNING. -/
def countRunning (db : List URec) : Nat :=
  db.countP (fun r => r.status == Status.running)

/-- Number of rows with status PENDING. -/
def countPending (db : List URec) : Nat :=
  db.countP (fun r => r.status == Status.pending)

/-- Promote the first PENDING row to RUNNING and stamp Start_Time
(batch_manager.py lines 175-179); none when no pending row remains. -/
def promoteFirstPending (now : ℚ) : List URec → Option (List URec)
  | [] => none
  | r :: rs =>
    if r.status == Status.pending then
      some ({ r with status := Status.running, startTime := some now } :: rs)
    else
      (promoteFirstPending now rs).map (r :: ·)

/-- One round of the admission loop per unit of fuel.  Each promotion
removes exactly one pending row, so countPending rounds are as many as
the Python while loop can ever take: when the fuel runs out no pending
candidate is left and the loop would break as well (see
promoteFirstPending_none). -/
def fill_slots_go (cap : Nat) (now : ℚ) :
    Nat → List URec → List URec
  | 0, db => db
  | fuel + 1, db =>
    if countRunning db < cap then
      match promoteFirstPending now db with
      | none => db
      | some db' => fill_slots_go cap now fuel db'
    else db

/-- The admission loop of BatchController.run_cycle (batch_manager.py
lines 170-179): while the running count is below MAX_CONCURRENT and a
pending candidate exists, promote the earliest pending row. -/
def fill_slots (cap : Nat) (now : ℚ) (db : List URec) : List URec :=
  fill_slots_go cap now (countPending db) db

/-- The three call sites of send_feishu_alert inside run_cycle and
run_watchdog. -/
inductive AlertKind
  | xyzMissing | crash | timeout
deriving DecidableEq, Repr

/-- Externally visible events of one run_cycle call. -/
inductive Event
  /-- a webhook message that went out. -/
  | alert (k : AlertKind) (unit : String)
  /-- the failure print inside send_feishu_alert when the post
  raises; the exception is swallowed there. -/
  | alertSendFailed (k : AlertKind) (unit : String)
  /-- one of the log lines of the controller. -/
  | logLine (tag : String) (unit : String)
  /-- a save_db call that completed. -/
  | saveRan
  /-- run_watchdog was entered. -/
  | watchdogRan
  /-- the auto-exit path called sys.exit(0). -/
  | autoExit
deriving DecidableEq, Repr

/-- send_feishu_alert (batch_manager.py lines 81-105): the post is
wrapped in try/except, so a delivery failure is only printed and never
propagates. -/
def send_feishu_alert (alertOk : Bool) (k : AlertKind) (unit : String) :
    List Event :=
  if alertOk then [.alert k unit] else [.alertSendFailed k unit]

/-- Per-unit observations run_cycle makes through MoleculeFlow: the
xyz source, the fatal marker, the final report, whether the advance
raised, and the determine_stage label.  The fatal, report and stage
fields correspond to FlowFS.fatal, FlowFS.report and determine_stage
of the unit-level model. -/
structure UnitProbe where
  xyzExists : Bool
  fatal : Bool
  report : Bool
  /-- an exception escapes the processing branch and is caught by the
  run_cycle handler. -/
  raises : Bool
  excText : String
  stage : String

/-- The per-unit body of the run_cycle loop (batch_manager.py lines
230-279), including the trailing Last_Updated stamp, which is skipped
only on the missing-xyz continue path. -/
def classifyUnit (alertOk : Bool) (p : UnitProbe) (now : ℚ) (r : URec) :
    URec × List Event :=
  if !p.xyzExists then
    ({ r with status := Status.failed, remark := "XYZ Missing" },
     .logLine "xyz-missing" r.name ::
       send_feishu_alert alertOk .xyzMissing r.name)
  else if p.fatal then
    ({ r with status := Status.failed, remark := "Fatal Error (See Log)",
              lastUpdated := some now },
     if r.status != Status.failed then [.logLine "fatal-stop" r.name]
     else [])
  else if p.report then
    ({ r with status := Status.completed, stage := "Finished",
              remark := "PLQY Report Generated", lastUpdated := some now },
     if r.status != Status.completed then [.logLine "done" r.name]
     else [])
  else if p.raises then
    ({ r with status := Status.error, remark := p.excText.take 50,
              lastUpdated := some now },
     .logLine "exception" r.name ::
       send_feishu_alert alertOk .crash r.name)
  else
    ({ r with stage := p.stage, remark := "Processing",
              lastUpdated := some now }, [])

/-- needle is an initial segment of the character list. -/
def charPrefix : List Char → List Char → Bool
  | [], _ => true
  | _ :: _, [] => false
  | a :: as, b :: bs => a == b && charPrefix as bs

/-- needle occurs contiguously inside the character list. -/
def charContains (needle : List Char) : List Char → Bool
  | [] => needle.isEmpty
  | c :: cs => charPrefix needle (c :: cs) || charContains needle cs

/-- Substring test of the Python containment expression that looks
for the timeout marker inside the remark column. -/
def hasTimeoutMarker (remark : String) : Bool :=
  charContains "Timeout Alert Sent".toList remark.toList

/-- run_watchdog body for one row (batch_manager.py lines 142-158):
only RUNNING rows are examined; an unparsable Last_Updated is
swallowed; an alert goes out only when the elapsed hours exceed the
threshold and the remark does not contain the marker yet, and then
the marker is appended. -/
def watchdogRec (alertOk : Bool) (now threshold : ℚ) (r : URec) :
    URec × List Event :=
  if r.status == Status.running then
    match r.lastUpdated with
    | none => (r, [])
    | some t =>
      if threshold < now - t then
        if hasTimeoutMarker r.remark then (r, [])
        else
          ({ r with remark := r.remark ++ " [Timeout Alert Sent]" },
           send_feishu_alert alertOk .timeout r.name)
      else (r, [])
  else (r, [])

/-- BatchController.run_watchdog over the whole store. -/
def run_watchdog (alertOk : Bool) (now threshold : ℚ) :
    List URec → List URec × List Event
  | [] => ([], [])
  | r :: rs =>
    let h := watchdogRec alertOk now threshold r
    let t := run_watchdog alertOk now threshold rs
    (h.1 :: t.1, h.2 ++ t.2)

/-- The processing loop over the RUNNING rows (batch_manager.py lines
230-279): rows that are not RUNNING after admission are untouched. -/
def processRunning (alertOk : Bool) (probes : String → UnitProbe)
    (now : ℚ) : List URec → List URec × List Event
  | [] => ([], [])
  | r :: rs =>
    let h :=
      if r.status == Status.running then
        classifyUnit alertOk (probes r.name) now r
      else (r, [])
    let t := processRunning alertOk probes now rs
    (h.1 :: t.1, h.2 ++ t.2)

/-- Configuration and probe inputs of one run_cycle call. -/
structure BatchEnv where
  now : ℚ
  /-- MAX_CONCURRENT. -/
  cap : Nat
  /-- TIMEOUT_THRESHOLD_HOURS. -/
  timeoutThreshold : ℚ
  /-- AUTO_EXIT. -/
  autoExit : Bool
  /-- MAX_IDLE_CYCLES. -/
  maxIdleCycles : Nat
  /-- xyz stems found by scan_new_molecules. -/
  newNames : List String
  /-- the unprotected save_db calls succeed. -/
  saveOk : Bool
  /-- the webhook post succeeds. -/
  alertOk : Bool
  /-- per-unit observations. -/
  probes : String → UnitProbe

/-- Controller state surviving between cycles. -/
structure BatchState where
  db : List URec
  idleCount : Nat

/-- Fresh row for a newly discovered molecule (batch_manager.py lines
112-119). -/
def initRec (now : ℚ) (n : String) : URec :=
  { name := n, status := Status.pending, stage := "Init",
    lastUpdated := some now, remark := "Newly added", startTime := none }

/-- scan_new_molecules (batch_manager.py lines 107-124) without the
save: rows for xyz stems not yet present in the store. -/
def scanDb (env : BatchEnv) (db : List URec) : List URec :=
  db ++ (env.newNames.filter
    (fun n => !(db.any (fun r => r.name == n)))).map (initRec env.now)

/-- True when scan_new_molecules found at least one new molecule and
therefore calls save_db. -/
def scanFoundNew (env : BatchEnv) (db : List URec) : Bool :=
  !(env.newNames.filter
    (fun n => !(db.any (fun r => r.name == n)))).isEmpty

/-- BatchController.run_cycle (batch_manager.py lines 160-282):
discovery, admission, idle handling with auto exit, the per-unit loop,
the unprotected save_db call and the watchdog.  A save_db failure is
uncaught in the source and is modelled as the error case; sys.exit(0)
of the auto-exit path is modelled as the autoExit event. -/
def run_cycle (env : BatchEnv) (st : BatchState) :
    Except String (BatchState × List Event) :=
  let db1 := scanDb env st.db
  if scanFoundNew env st.db && !env.saveOk then
    .error "save_db failed in scan_new_molecules"
  else
    let scanEvs : List Event :=
      if scanFoundNew env st.db then [.saveRan] else []
    let db2 := fill_slots env.cap env.now db1
    if countRunning db2 == 0 then
      if env.autoExit then
        let ic := st.idleCount + 1
        if env.maxIdleCycles ≤ ic then
          if !env.saveOk then .error "save_db failed in auto-exit"
          else .ok (⟨db2, ic⟩, scanEvs ++ [.saveRan, .autoExit])
        else .ok (⟨db2, ic⟩, scanEvs)
      else .ok (⟨db2, st.idleCount⟩, scanEvs)
    else
      let pr := processRunning env.alertOk env.probes env.now db2
      if !env.saveOk then .error "save_db failed after processing"
      else
        let wd := run_watchdog env.alertOk env.now env.timeoutThreshold pr.1
        .ok (⟨wd.1, 0⟩,
          scanEvs ++ pr.2 ++ [.saveRan, .watchdogRan] ++ wd.2)

/-- Boltzmann constant in Hartree per Kelvin
(lib/analysis_handler.py line 13). -/
def KB_HARTREE : ℚ := 31668114 / 10000000000000

/-- The occupation-ratio computation of calculate_plqy
(lib/analysis_handler.py lines 90-95).  The first argument models
math.exp: none stands for the OverflowError the source catches, in
which case the ratio falls back to 0. -/
def boltzRatio (mexp : ℚ → Option ℚ) (deltaE temp : ℚ) : ℚ :=
  match mexp (-deltaE / (KB_HARTREE * temp)) with
  | some v => v
  | none => 0

/-- lib/analysis_handler.py calculate_plqy (lines 78-105): a zero
total effective rate yields 0 instead of dividing; the result is the
PLQY-ratio pair the caller unpacks. -/
def calculate_plqy (mexp : ℚ → Option ℚ) (kr kisc kic : ℚ)
    (deltaE : ℚ) (temp : ℚ) : ℚ × ℚ :=
  (if kr + kisc + kic * boltzRatio mexp deltaE temp = 0 then 0
   else kr / (kr + kisc + kic * boltzRatio mexp deltaE temp),
   boltzRatio mexp deltaE temp)

/-- Events of a run_cycle result; an aborted cycle produced none that
the caller can still see. -/
def cycleEvents (x : Except String (BatchState × List Event)) :
    List Event :=
  match x with
  | .ok out => out.2
  | .error _ => []

/-- Webhook messages among the events. -/
def Event.isAlert : Event → Bool
  | .alert _ _ => true
  | _ => false

/-- Timeout webhook messages among the events. -/
def Event.isTimeoutAlert : Event → Bool
  | .alert .timeout _ => true
  | _ => false

/-- Status column of the store after a run_cycle result. -/
def cycleStatuses (x : Except String (BatchState × List Event)) :
    List Status :=
  match x with
  | .ok out => out.1.db.map (fun r => r.status)
  | .error _ => []

/-- The uncaught exception of a run_cycle result, when there is one. -/
def cycleError (x : Except String (BatchState × List Event)) :
    Option String :=
  match x with
  | .ok _ => none
  | .error e => some e

/-! Concrete fixtures used by the witnesses and counterexamples. -/

/-- A stage pair whose opt and freq jobs both completed. -/
def gaussDone : GaussFS :=
  { optDone := true, optSlurm := true, retryCalcall := false,
    optLog := true, optChk := true, freqDone := true, freqSlurm := true,
    freqLog := true, freqChk := true }

/-- Probe values of a clean stage pair: normal termination, no
imaginary frequency, a two-hour freq run. -/
def gaussEnvOk : GaussEnv :=
  { optTermOk := true, freqTermOk := true, hasImag := false,
    elapsedHours := 2, optCoordsOk := true, freqCoordsOk := true }

/-- Probe values of a freq run that shows imaginary frequencies after
two hours. -/
def gaussEnvImag : GaussEnv :=
  { gaussEnvOk with hasImag := true }

/-- A MOMAP branch that has not started. -/
def momapIdle : MomapFS :=
  { evcDone := none, retryCart := false, runEvcSlurm := false,
    runSlurm := false, jobDone := false, evcOut := false }

/-- A MOMAP branch whose EVC job was submitted on an earlier cycle and
has produced nothing yet. -/
def momapSubmitted : MomapFS :=
  { momapIdle with runSlurm := true }

/-- MOMAP probe values without any error signature. -/
def momapEnvOk : MomapEnv :=
  { errStatus := .ok, dint := none, cart := none }

/-- A unit on which every stage is still untouched. -/
def flowInit : FlowFS :=
  { fatal := false,
    s0 := { optDone := false, optSlurm := false, retryCalcall := false,
            optLog := false, optChk := false, freqDone := false,
            freqSlurm := false, freqLog := false, freqChk := false },
    s1 := { optDone := false, optSlurm := false, retryCalcall := false,
            optLog := false, optChk := false, freqDone := false,
            freqSlurm := false, freqLog := false, freqChk := false },
    t1 := { optDone := false, optSlurm := false, retryCalcall := false,
            optLog := false, optChk := false, freqDone := false,
            freqSlurm := false, freqLog := false, freqChk := false },
    orca := { jobDone := false, slurm := false },
    kr := momapIdle, kisc := momapIdle, kic := momapIdle,
    report := false }

/-- Probe values of a fully healthy cycle. -/
def envOk : Env :=
  { s0 := gaussEnvOk, s1 := gaussEnvOk, t1 := gaussEnvOk,
    orcaCoordsOk := true, kr := momapEnvOk, kisc := momapEnvOk,
    kic := momapEnvOk }

/-- A unit whose FATAL_ERROR.txt exists. -/
def flowFatal : FlowFS :=
  { flowInit with fatal := true }

/-- C7 and C2 scenario, first cycle: S0 and S1 accepted, the T1 pair
completed both jobs, no retry flag, orca and the MOMAP branches not
started. -/
def c7fs : FlowFS :=
  { flowInit with s0 := gaussDone, s1 := gaussDone, t1 := gaussDone }

/-- C7 and C2 scenario probes: T1 freq log shows imaginary
frequencies after a two-hour run. -/
def c7env : Env :=
  { envOk with t1 := gaussEnvImag }

/-- The T1 pair right after trigger_retry ran: flag set, job.done and
logs and chk files cleared, but run.slurm of the first submission
still in place. -/
def gaussAfterRetry : GaussFS :=
  { optDone := false, optSlurm := true, retryCalcall := true,
    optLog := false, optChk := false, freqDone := false,
    freqSlurm := true, freqLog := false, freqChk := false }

/-- C2 scenario, state at the cycle after the retry was triggered. -/
def c2fs : FlowFS :=
  { flowInit with s0 := gaussDone, s1 := gaussDone, t1 := gaussAfterRetry }

/-- C3 scenario: the three gaussian pairs accepted, ORCA done, and
each MOMAP branch EVC job already submitted (run.slurm present) with
no completion marker and no evc.out yet. -/
def c3fs : FlowFS :=
  { flowInit with s0 := gaussDone, s1 := gaussDone, t1 := gaussDone,
                  orca := { jobDone := true, slurm := true },
                  kr := momapSubmitted, kisc := momapSubmitted,
                  kic := momapSubmitted }

/-- C8 scenario probes: both candidate files parsed, both below the
threshold, evc.dint.dat with the lower mean. -/
def c8env : MomapEnv :=
  { errStatus := .ok, dint := some (1000, 1000), cart := some (2000, 2000) }

/-- C8 scenario: the kic EVC job finished (job.done and evc.out). -/
def c8fs : MomapFS :=
  { evcDone := none, retryCart := false, runEvcSlurm := false,
    runSlurm := true, jobDone := true, evcOut := true }

/-- C8 witness probes: only evc.dint.dat parsed, below the
threshold. -/
def c8wEnv : MomapEnv :=
  { errStatus := EvcErrStatus.ok, dint := some (1000, 1000),
    cart := none }

/-- A RUNNING status row whose unit is healthy. -/
def recRunning : URec :=
  { name := "mol1", status := Status.running, stage := "ORCA Done",
    lastUpdated := some 10, remark := "Processing", startTime := some 0 }

/-- A PENDING status row. -/
def recPending : URec :=
  { name := "mol2", status := Status.pending, stage := "Init",
    lastUpdated := some 0, remark := "Newly added", startTime := none }

/-- Probe of a healthy unit in progress. -/
def probeHealthy : UnitProbe :=
  { xyzExists := true, fatal := false, report := false, raises := false,
    excText := "", stage := "ORCA Done" }

/-- Probe of a unit whose FATAL_ERROR.txt exists. -/
def probeFatal : UnitProbe :=
  { probeHealthy with fatal := true }

/-- C6 scenario: one RUNNING unit whose store row went stale 90 hours
ago, far beyond the 30 hour threshold, everything else healthy. -/
def c6env : BatchEnv :=
  { now := 100, cap := 14, timeoutThreshold := 30, autoExit := true,
    maxIdleCycles := 2, newNames := [], saveOk := true, alertOk := true,
    probes := fun _ => probeHealthy }

/-- C9 scenario: same store, but the save_db call raises. -/
def c9env : BatchEnv :=
  { c6env with saveOk := false }

/-- C5 scenario: same store, the unit has a FatalErrorLog. -/
def c5env : BatchEnv :=
  { c6env with probes := fun _ => probeFatal }

/-! Helper lemmas shared by several results. -/

set_option maxHeartbeats 3200000 in
theorem stageIdxView_mono_bits :
    ∀ a1 a2 a3 a4 a5 a6 a7 a8 b1 b2 b3 b4 b5 b6 b7 b8 : Bool,
      StageView.le ⟨a1, a2, a3, a4, a5, a6, a7, a8⟩
          ⟨b1, b2, b3, b4, b5, b6, b7, b8⟩ = true →
        stageIdxView ⟨a1, a2, a3, a4, a5, a6, a7, a8⟩ ≤
          stageIdxView ⟨b1, b2, b3, b4, b5, b6, b7, b8⟩ := by
  decide

theorem stageIdxView_mono (v w : StageView) (h : StageView.le v w = true) :
    stageIdxView v ≤ stageIdxView w := by
  cases v
  cases w
  exact stageIdxView_mono_bits _ _ _ _ _ _ _ _ _ _ _ _ _ _ _ _ h

theorem determineStageView_label :
    ∀ a1 a2 a3 a4 a5 a6 a7 a8 : Bool,
      determineStageView ⟨a1, a2, a3, a4, a5, a6, a7, a8⟩ =
        stageLabel (stageIdxView ⟨a1, a2, a3, a4, a5, a6, a7, a8⟩) := by
  decide

/-- The determine_stage label is exactly the pipeline label at
position stageIdx, so ordering labels in pipeline order and ordering
stage indices agree. -/
theorem determine_stage_eq_label (fs : FlowFS) :
    determine_stage fs = stageLabel (stageIdx fs) := by
  unfold determine_stage stageIdx
  cases h : fs.view
  exact determineStageView_label _ _ _ _ _ _ _ _

theorem promoteFirstPending_none (now : ℚ) :
    ∀ db : List URec, promoteFirstPending now db = none ↔
      countPending db = 0 := by
  intro db
  induction db with
  | nil => simp [promoteFirstPending, countPending]
  | cons r rs ih =>
    by_cases hp : (r.status == Status.pending) = true
    · simp [promoteFirstPending, hp, countPending, List.countP_cons]
    · simp only [promoteFirstPending, hp, if_false, Option.map_eq_none,
        countPending, List.countP_cons, Bool.not_eq_true] at *
      simp [hp, ih]

theorem promoteFirstPending_running (now : ℚ) :
    ∀ db db', promoteFirstPending now db = some db' →
      countRunning db' = countRunning db + 1 := by
  intro db
  induction db with
  | nil => intro db' h; simp [promoteFirstPending] at h
  | cons r rs ih =>
    intro db' h
    by_cases hp : (r.status == Status.pending) = true
    · simp [promoteFirstPending, hp] at h
      subst h
      have hr : ¬ (r.status == Status.running) = true := by
        simp only [beq_iff_eq] at hp ⊢
        simp [hp]
      simp [countRunning, List.countP_cons, hr]
    · simp [promoteFirstPending, hp] at h
      obtain ⟨l, hl, rfl⟩ := h
      simp only [countRunning, List.countP_cons] at *
      cases hr : r.status == Status.running <;>
        simp [hr, ih l hl, Nat.add_comm, Nat.add_assoc]

theorem fill_slots_go_cap (cap : Nat) (now : ℚ) :
    ∀ fuel db, countRunning db ≤ cap →
      countRunning (fill_slots_go cap now fuel db) ≤ cap := by
  intro fuel
  induction fuel with
  | zero => intro db h; simpa [fill_slots_go] using h
  | succ n ih =>
    intro db h
    rw [fill_slots_go]
    by_cases hlt : countRunning db < cap
    · simp only [hlt, if_true]
      cases hp : promoteFirstPending now db with
      | none => exact h
      | some db' =>
        apply ih
        have := promoteFirstPending_running now db db' hp
        omega
    · simpa [hlt] using h

theorem fill_slots_go_at_cap (cap : Nat) (now : ℚ) (fuel : Nat)
    (db : List URec) (h : countRunning db = cap) :
    fill_slots_go cap now fuel db = db := by
  cases fuel with
  | zero => rfl
  | succ n => simp [fill_slots_go, h]

/-! Claim results. -/

/-- Claim C1: for every unit whose FATAL_ERROR.txt exists, process
short-circuits on the fuse check: the returned state equals the input
state and no effect (no submission, no file write, no fatal append) is
emitted, so no stage directory is touched. -/
theorem process_fatal_short_circuit (env : Env) (fs : FlowFS)
    (h : fs.fatal = true) : process env fs = (fs, []) := by
  simp [process, h]

theorem process_fatal_short_circuit_witness :
    flowFatal.fatal = true ∧ process envOk flowFatal = (flowFatal, []) :=
  ⟨rfl, process_fatal_short_circuit envOk flowFatal rfl⟩

/-- Claim C2, evaluation at the failing input: the cycle on a unit
whose T1 freq run shows imaginary frequencies within the time budget
triggers the corrective retry (flag set, markers and logs cleared) but
submits nothing, and the next cycle also submits nothing and changes
nothing, because run_opt_step sees the stale run.slurm of the first
submission without a job.done and returns: the promised opt=calcall
resubmission never happens and the unit is stuck. -/
theorem calcall_retry_deadlock :
    process c7env c7fs = (c2fs, []) ∧
    c2fs.t1.retryCalcall = true ∧
    c2fs.t1.optDone = false ∧
    c2fs.t1.optSlurm = true ∧
    process c7env c2fs = (c2fs, []) := by
  decide

/-- Claim C3, evaluation at the failing input: each MOMAP branch EVC
stage was already submitted (run.slurm exists, no job.done, no
evc.out), nothing external changed, and yet the next process call
submits all three again, because the guard tests for a file named
run_evc.slurm that no code path ever creates, while write_momap_slurm
writes run.slurm.  The on-disk state is reproduced identically, so
every further cycle resubmits as well. -/
theorem evc_duplicate_submission :
    c3fs.kr.runSlurm = true ∧
    c3fs.kr.jobDone = false ∧
    c3fs.kr.evcOut = false ∧
    (process envOk c3fs).1 = c3fs ∧
    Eff.submit .kr ∈ (process envOk c3fs).2 ∧
    Eff.submit .kisc ∈ (process envOk c3fs).2 ∧
    Eff.submit .kic ∈ (process envOk c3fs).2 := by
  decide

/-- Claim C4: the admission loop promotes a pending row only while
the running count is strictly below MAX_CONCURRENT, so after an
admission pass that started at or below the cap the running count is
still at most the cap, and a pass that starts exactly at the cap
changes nothing.  The hypothesis holds on every reachable store
because admission is the only step that ever sets RUNNING. -/
theorem admission_cap (cap : Nat) (now : ℚ) (db : List URec)
    (h : countRunning db ≤ cap) :
    countRunning (fill_slots cap now db) ≤ cap ∧
    (countRunning db = cap → fill_slots cap now db = db) := by
  constructor
  · exact fill_slots_go_cap cap now (countPending db) db h
  · intro hc
    exact fill_slots_go_at_cap cap now (countPending db) db hc

theorem admission_cap_witness :
    countRunning [recRunning, recPending] ≤ 1 ∧
    countRunning (fill_slots 1 5 [recRunning, recPending]) ≤ 1 ∧
    fill_slots 1 5 [recRunning, recPending] = [recRunning, recPending] := by
  have h := admission_cap 1 5 [recRunning, recPending] (by decide)
  exact ⟨by decide, h.1, h.2 (by decide)⟩

/-- Claim C5 counterexample: a run_cycle pass over a RUNNING unit
whose FatalErrorLog exists marks the row FAILED with the remark that
references the log, but sends no webhook alert whatsoever; the
claimed alert carrying the tail of the log does not exist in the
code. -/
theorem fatal_unit_no_alert_cex :
    probeFatal.fatal = true ∧
    recRunning.status = Status.running ∧
    cycleStatuses (run_cycle c5env ⟨[recRunning], 0⟩) = [Status.failed] ∧
    (cycleEvents (run_cycle c5env ⟨[recRunning], 0⟩)).filter
      Event.isAlert = [] := by
  decide

/-- Claim C5 amended: for a unit whose FatalErrorLog exists (and whose
xyz source is present), the cycle marks the row FAILED with remark
Fatal Error (See Log), sends no alert of any kind, and emits its skip
log line exactly once: only when the status was not already FAILED. -/
theorem classify_fatal_no_alert (alertOk : Bool) (p : UnitProbe)
    (now : ℚ) (r : URec) (hx : p.xyzExists = true)
    (hf : p.fatal = true) :
    (classifyUnit alertOk p now r).1.status = Status.failed ∧
    (classifyUnit alertOk p now r).1.remark = "Fatal Error (See Log)" ∧
    (classifyUnit alertOk p now r).2.filter Event.isAlert = [] ∧
    (r.status = Status.failed → (classifyUnit alertOk p now r).2 = []) ∧
    (r.status ≠ Status.failed →
      (classifyUnit alertOk p now r).2 =
        [Event.logLine "fatal-stop" r.name]) := by
  by_cases hs : r.status = Status.failed <;>
    simp [classifyUnit, hx, hf, hs, Event.isAlert]

theorem classify_fatal_no_alert_witness :
    (classifyUnit true probeFatal 100 recRunning).1.status =
      Status.failed ∧
    (classifyUnit true probeFatal 100 recRunning).2 =
      [Event.logLine "fatal-stop" "mol1"] := by
  have h := classify_fatal_no_alert true probeFatal 100 recRunning rfl rfl
  exact ⟨h.1, by simpa using h.2.2.2.2 (by decide)⟩

/-- Claim C6, evaluation at the failing input: a RUNNING unit whose
row went stale 90 hours ago (threshold 30) would make run_watchdog
alert if the watchdog saw the stale row, but run_cycle stamps
Last_Updated to the current time for every RUNNING unit right before
it calls run_watchdog, so the full cycle emits no timeout alert, on
this cycle or any later one: the stall alert can never fire. -/
theorem watchdog_never_alerts_cex :
    c6env.timeoutThreshold < c6env.now - 10 ∧
    recRunning.lastUpdated = some 10 ∧
    recRunning.status = Status.running ∧
    (watchdogRec true c6env.now c6env.timeoutThreshold recRunning).2 =
      [Event.alert AlertKind.timeout "mol1"] ∧
    (cycleEvents (run_cycle c6env ⟨[recRunning], 0⟩)).filter
      Event.isTimeoutAlert = [] := by
  refine ⟨by norm_num [c6env], rfl, rfl, ?_, ?_⟩
  · norm_num [watchdogRec, recRunning, c6env, hasTimeoutMarker,
      send_feishu_alert]
    decide
  · norm_num [run_cycle, c6env, recRunning, scanDb, scanFoundNew,
      fill_slots, fill_slots_go, countPending, countRunning,
      List.countP_nil, List.countP_cons, processRunning, classifyUnit,
      probeHealthy, run_watchdog, watchdogRec, cycleEvents,
      Event.isTimeoutAlert, List.filter, send_feishu_alert,
      hasTimeoutMarker]

/-- Claim C7 counterexample: a non-fatal, non-completed unit at label
Gaussian T1 Done regresses to Gaussian S1 Done in one cycle, because
the corrective calcall retry deletes the T1 job.done markers that
determine_stage reads. -/
theorem stage_regression_cex :
    c7fs.fatal = false ∧
    (process c7env c7fs).1.fatal = false ∧
    (process c7env c7fs).1.report = false ∧
    determine_stage c7fs = "Gaussian T1 Done" ∧
    determine_stage (process c7env c7fs).1 = "Gaussian S1 Done" ∧
    stageIdx (process c7env c7fs).1 < stageIdx c7fs := by
  decide

/-- Claim C7 amended: across one cycle the determine_stage label is
non-decreasing in pipeline order whenever the cycle clears none of the
completion markers determine_stage reads; the only paths that clear
one are the corrective calcall retry and the MOMAP EVC repair and
acceptance transitions, and in those cycles the label may step
backwards. -/
theorem determine_stage_mono (env : Env) (fs : FlowFS)
    (h : StageView.le fs.view (process env fs).1.view = true) :
    stageIdx fs ≤ stageIdx (process env fs).1 :=
  stageIdxView_mono _ _ h

theorem determine_stage_mono_witness :
    StageView.le flowInit.view (process envOk flowInit).1.view = true ∧
    stageIdx flowInit ≤ stageIdx (process envOk flowInit).1 :=
  ⟨by decide, determine_stage_mono envOk flowInit (by decide)⟩

/-- Claim C8 counterexample: with both candidate files below the
threshold and evc.dint.dat holding the lower mean, check_evc_reorg
selects evc.dint.dat, yet the kic branch persists evc.cart.dat into
evc.done and its rate job references evc.cart.dat; and even the kr
branch, which does persist the selection, hands evc.cart.dat to its
rate job, because the call site passes the choice under the lowercase
key ds_file that the template lookup of DSFile never matches: the
claimed references-exactly-that-file behaviour fails for kic and
kr. -/
theorem kic_ignores_best_cex :
    check_evc_reorg c8env.dint c8env.cart =
      (true, some "evc.dint.dat") ∧
    (handle_momap .kic c8env true true c8fs).m.evcDone =
      some "evc.cart.dat" ∧
    Eff.writeRateInp .kic "evc.cart.dat" ∈
      (handle_momap .kic c8env true true
        { momapIdle with evcDone := some "evc.cart.dat" }).effs ∧
    (handle_momap .kr c8env true true c8fs).m.evcDone =
      some "evc.dint.dat" ∧
    Eff.writeRateInp .kr "evc.cart.dat" ∈
      (handle_momap .kr c8env true true
        { momapIdle with evcDone := some "evc.dint.dat" }).effs := by
  refine ⟨?_, ?_, by decide, ?_, by decide⟩
  · norm_num [check_evc_reorg, c8env]
  · norm_num [handle_momap, check_evc_reorg, c8env, c8fs,
      MomapBranch.dir, MomapBranch.evcDoneContent]
  · norm_num [handle_momap, check_evc_reorg, c8env, c8fs,
      MomapBranch.dir, MomapBranch.evcDoneContent]

/-- Claim C8 amended: for every branch with a finished EVC job and no
error signature, a rejected check_evc_reorg marks the branch fatal and
leaves no evc.done; check_evc_reorg rejects as soon as any parsed
value exceeds 5000 and otherwise selects the candidate with the
lowest mean (ties to evc.dint.dat); a passed check persists the
branch's recorded content (the selected candidate for kr and kisc,
always evc.cart.dat for kic) and the rate phase writes the DSFile the
call-site keywords produce: only kisc hands the recorded choice to
its rate job; kr passes it under the lowercase key ds_file that the
template lookup never matches, so the kr rate input always carries
the default evc.cart.dat; kic always references evc.cart.dat. -/
theorem momap_evc_gate (b : MomapBranch) (env : MomapEnv)
    (m m2 : MomapFS) (hdone : m.evcDone = none)
    (herr : env.errStatus = EvcErrStatus.ok)
    (hguard : m.runEvcSlurm = false) (hjob : m.jobDone = true) :
    ((check_evc_reorg env.dint env.cart).1 = false →
      (handle_momap b env true true m).fatal.isSome = true ∧
      (handle_momap b env true true m).m.evcDone = none) ∧
    (∀ best, check_evc_reorg env.dint env.cart = (true, best) →
      (handle_momap b env true true m).m.evcDone =
        some (b.evcDoneContent best) ∧
      Eff.writeEvcDone b.dir (b.evcDoneContent best) ∈
        (handle_momap b env true true m).effs) ∧
    (∀ x y, (env.dint = some (x, y) ∨ env.cart = some (x, y)) →
      (5000 < x ∨ 5000 < y) →
      (check_evc_reorg env.dint env.cart).1 = false) ∧
    (∀ d1 d2 c1 c2, env.dint = some (d1, d2) → env.cart = some (c1, c2) →
      d1 ≤ 5000 → d2 ≤ 5000 → c1 ≤ 5000 → c2 ≤ 5000 →
      check_evc_reorg env.dint env.cart =
        (true, some (if (c1 + c2) / 2 < (d1 + d2) / 2 then "evc.cart.dat"
          else "evc.dint.dat"))) ∧
    (∀ content, m2.evcDone = some content → m2.jobDone = false →
      m2.runSlurm = false →
      (handle_momap b env true true m2).effs =
        [Eff.writeRateInp b.dir (b.rateDsFile content),
         Eff.writeSlurm b.dir, Eff.submit b.dir]) ∧
    (∀ content, MomapBranch.rateDsFile MomapBranch.kisc content =
      content) ∧
    (∀ content, MomapBranch.rateDsFile MomapBranch.kr content =
      "evc.cart.dat") ∧
    (∀ content, MomapBranch.rateDsFile MomapBranch.kic content =
      "evc.cart.dat") := by
  refine ⟨?_, ?_, ?_, ?_, ?_, fun _ => rfl, fun _ => rfl, fun _ => rfl⟩
  · intro hfail
    rcases hc : check_evc_reorg env.dint env.cart with ⟨pass, best⟩
    rw [hc] at hfail
    simp only at hfail
    subst hfail
    simp [handle_momap, hdone, herr, hguard, hjob, hc]
  · intro best hc
    simp [handle_momap, hdone, herr, hguard, hjob, hc]
  · intro x y hxy hover
    rcases hxy with hx | hx
    · rcases hcc : env.cart with _ | c <;>
        simp [check_evc_reorg, hx, hcc] <;>
        rcases hover with h5 | h5 <;> simp [h5]
    · rcases hdd : env.dint with _ | d
      · simp [check_evc_reorg, hdd, hx]
        rcases hover with h5 | h5 <;> simp [h5]
      · simp only [check_evc_reorg, hdd, hx]
        by_cases hd : 5000 < d.1 ∨ 5000 < d.2
        · rcases hd with h5 | h5 <;> simp [h5]
        · push_neg at hd
          rcases hover with h5 | h5 <;>
            simp [not_lt.2 hd.1, not_lt.2 hd.2, h5]
  · intro d1 d2 c1 c2 hd hc h1 h2 h3 h4
    by_cases hm : (c1 + c2) / 2 < (d1 + d2) / 2 <;>
      simp [check_evc_reorg, hd, hc, not_lt.2 h1, not_lt.2 h2,
        not_lt.2 h3, not_lt.2 h4, hm]
  · intro content hdone2 hjob2 hslurm2
    simp [handle_momap, hdone2, hjob2, hslurm2]

theorem momap_evc_gate_witness :
    c8fs.evcDone = none ∧ c8fs.runEvcSlurm = false ∧
    c8fs.jobDone = true ∧
    (handle_momap .kr c8wEnv true true c8fs).m.evcDone =
      some "evc.dint.dat" := by
  have h := momap_evc_gate .kr c8wEnv c8fs momapIdle rfl rfl rfl rfl
  refine ⟨rfl, rfl, rfl, ?_⟩
  have h2 := h.2.1 (some "evc.dint.dat") (by decide)
  exact h2.1

/-- Claim C9 counterexample: a store-save failure is uncaught: with
one RUNNING unit and a save_db call that raises, run_cycle aborts
right after the processing loop and the watchdog never runs, contrary
to the claim that a persistence failure never aborts the cycle. -/
theorem save_failure_aborts_cex :
    c9env.saveOk = false ∧
    recRunning.status = Status.running ∧
    cycleError (run_cycle c9env ⟨[recRunning], 0⟩) =
      some "save_db failed after processing" ∧
    Event.watchdogRan ∉ cycleEvents (run_cycle c9env ⟨[recRunning], 0⟩) := by
  decide

/-- Claim C9 amended: an alert-send failure never aborts the cycle
(send_feishu_alert swallows it, so the result does not depend on the
webhook outcome), and whenever every save_db call succeeds, a cycle
with running units after admission completes and reaches the
watchdog; only an uncaught save_db failure aborts the cycle early. -/
theorem run_cycle_reaches_watchdog (env : BatchEnv) (st : BatchState)
    (hs : env.saveOk = true)
    (hr : countRunning (fill_slots env.cap env.now (scanDb env st.db)) ≠ 0) :
    ∃ out, run_cycle env st = Except.ok out ∧
      Event.watchdogRan ∈ out.2 := by
  have h2 : (countRunning (fill_slots env.cap env.now
      (scanDb env st.db)) == 0) = false := by
    rw [beq_eq_false_iff_ne]
    exact hr
  simp only [run_cycle, hs, h2, Bool.not_true, Bool.and_false,
    Bool.false_eq_true, if_false, ite_false]
  exact ⟨_, rfl, by simp⟩

theorem run_cycle_reaches_watchdog_witness :
    c6env.saveOk = true ∧
    countRunning (fill_slots c6env.cap c6env.now
      (scanDb c6env [recRunning])) ≠ 0 ∧
    ∃ out, run_cycle c6env ⟨[recRunning], 0⟩ = Except.ok out ∧
      Event.watchdogRan ∈ out.2 :=
  ⟨rfl, by decide,
   run_cycle_reaches_watchdog c6env ⟨[recRunning], 0⟩ rfl (by decide)⟩

/-- Claim C10: calculate_plqy is total for all finite inputs: an
exponent overflow makes the occupation ratio 0, a zero total
effective rate makes the yield 0 instead of dividing, and in every
case a pair is returned. -/
theorem calculate_plqy_safe (mexp : ℚ → Option ℚ)
    (kr kisc kic dE temp : ℚ) :
    (mexp (-dE / (KB_HARTREE * temp)) = none →
      (calculate_plqy mexp kr kisc kic dE temp).2 = 0) ∧
    (kr + kisc + kic * (calculate_plqy mexp kr kisc kic dE temp).2 = 0 →
      (calculate_plqy mexp kr kisc kic dE temp).1 = 0) := by
  constructor
  · intro h
    simp [calculate_plqy, boltzRatio, h]
  · intro h
    simp only [calculate_plqy] at h ⊢
    rw [if_pos h]

theorem calculate_plqy_safe_witness :
    (calculate_plqy (fun _ => none) 0 0 0 0 300).2 = 0 ∧
    (calculate_plqy (fun _ => none) 0 0 0 0 300).1 = 0 := by
  have h := calculate_plqy_safe (fun _ => none) 0 0 0 0 300
  exact ⟨h.1 rfl, h.2 (by simp)⟩

end AutoPhosFlow
